import Mathlib

/-!
# Verification of the yamtrack-data-migrator row-mapping and validation pipeline

Shallow embedding of the repository's core (`src/adapters/validate.py`,
`src/adapters/hardcover.py`, `src/adapters/igdb.py`, `src/adapters/openlibrary.py`).

Modelling conventions:
* A Python value occurring in a mapped row is `PyVal` (None, str, float, int);
  Python floats are modelled as exact decimals (every float this pipeline
  produces or compares is an exact small decimal, on which IEEE doubles and
  exact decimals agree).
* A raw CSV row (`csv.DictReader` output) is an association list from column
  name to string; `row.get(k)` is an `Option String` lookup, so calling a
  string method on the result of a missing key models Python's
  `AttributeError` on `None`.
* `log(...)` calls only emit diagnostics and never affect control flow or
  results; they are elided from the embedding.
* Exceptions are modelled with `Except PyExn`; adapters whose code can raise
  no uncaught exception are given total types.
-/

namespace YamTrack

/-- A Python value stored in a mapped-row dict.  A float is an exact decimal
`num / 10 ^ exp10`, kept in normal form (no trailing factor of ten in `num`
while `exp10 > 0`), so that structural equality is value equality; every
float produced by this pipeline is such an exact small decimal, on which IEEE
doubles and exact decimals agree. -/
inductive PyVal where
  | vnone : PyVal
  | vstr (s : String) : PyVal
  | vfloat (num : ℤ) (exp10 : ℕ) : PyVal
  | vint (n : ℤ) : PyVal
deriving DecidableEq, Repr

/-- Normalise an exact decimal by cancelling factors of ten. -/
def normDec : ℤ → ℕ → ℤ × ℕ
  | n, 0 => (n, 0)
  | n, e + 1 => if n % 10 == 0 then normDec (n / 10) e else (n, e + 1)

/-- Smart constructor for float values (normalising). -/
def mkFloat (n : ℤ) (e : ℕ) : PyVal :=
  let p := normDec n e
  PyVal.vfloat p.1 p.2

/-- A mapped-row dict: association list column name → value. -/
abbrev Dict := List (String × PyVal)

/-- A raw CSV row: association list column name → string field. -/
abbrev RawRow := List (String × String)

/-- `row.get(key)` on a raw CSV row: `None` when the column is absent. -/
def rawGet (row : RawRow) (key : String) : Option String :=
  (row.find? (fun p => p.1 == key)).map (fun p => p.2)

/-- Dict lookup (`key in d` / `d[key]` combined into an `Option`). -/
def dlookup (d : Dict) (key : String) : Option PyVal :=
  (d.find? (fun p => p.1 == key)).map (fun p => p.2)

/-- `d[key]` after a presence check has established the key exists. -/
def dget (d : Dict) (key : String) : PyVal :=
  (dlookup d key).getD PyVal.vnone

/-- Lift `row.get(key)` (None or a string) into a `PyVal`. -/
def optStr : Option String → PyVal
  | none => PyVal.vnone
  | some s => PyVal.vstr s

/-- Whitespace as `str.strip()` removes (ASCII fragment). -/
def isPyWs (c : Char) : Bool :=
  c == ' ' || c == '\t' || c == '\n' || c == '\r' || c == '\x0b' || c == '\x0c'

/-- `s.strip()` on the character list of a string. -/
def trimChars (cs : List Char) : List Char :=
  ((cs.dropWhile isPyWs).reverse.dropWhile isPyWs).reverse

/-- `s.lower()` (ASCII fragment, all the adapters' vocabularies are ASCII). -/
def lowerStr (s : String) : String := String.mk (s.toList.map Char.toLower)

/-- Whether `str(v).strip()` is non-empty.  `str(None) = "None"` and the string
form of a float or int is never whitespace-only, so only an actual string can
be blank. -/
def presentVal : PyVal → Bool
  | PyVal.vnone => true
  | PyVal.vstr s => !(trimChars s.toList).isEmpty
  | PyVal.vfloat _ _ => true
  | PyVal.vint _ => true

/-- `_present(d, key)` from `validate.py`: the key exists and
`str(d[key]).strip() != ""`. -/
def present (d : Dict) (key : String) : Bool :=
  match dlookup d key with
  | none => false
  | some v => presentVal v

/-! ## Python numeric-string parsing (`float(...)`, `int(...)`) -/

/-- Numeric value of an ASCII digit character. -/
def digitVal (c : Char) : Nat := c.toNat - 48

/-- Remove the single underscores Python permits between digits of a numeric
literal (`float("1_0") == 10.0`); an underscore not flanked by digits is kept
and makes the subsequent digit scan stop, as in CPython.  The flag records
whether the previous kept character was a digit. -/
def stripUndersAux : Bool → List Char → List Char
  | _, [] => []
  | prevDigit, c :: rest =>
    if c == '_' then
      match rest with
      | e :: _ =>
        if prevDigit && e.isDigit then stripUndersAux false rest
        else c :: stripUndersAux false rest
      | [] => [c]
    else c :: stripUndersAux c.isDigit rest

def stripUnders (cs : List Char) : List Char := stripUndersAux false cs

/-- Scan a maximal run of digits: returns (value, digit count, remainder). -/
def readNum : List Char → Nat → Nat → (Nat × Nat × List Char)
  | [], v, n => (v, n, [])
  | c :: cs, v, n =>
    if c.isDigit then readNum cs (10 * v + digitVal c) (n + 1)
    else (v, n, c :: cs)

/-- Optional exponent suffix of a float literal; the argument and result are
exact decimals `num / 10 ^ exp10`. -/
def readExp (n : ℤ) (e : ℕ) : List Char → Option (ℤ × ℕ)
  | [] => some (n, e)
  | 'e' :: rest =>
    let (eneg, rest') := match rest with
      | '+' :: r => (false, r)
      | '-' :: r => (true, r)
      | r => (false, r)
    let (ev, en, rest'') := readNum rest' 0 0
    if en == 0 || !rest''.isEmpty then none
    else some (if eneg then (n, e + ev) else (n * (10 : ℤ) ^ ev, e))
  | _ => none

/-- Mantissa (digits, optional decimal point) followed by optional exponent. -/
def readMantissa (cs : List Char) : Option (ℤ × ℕ) :=
  let (ip, ipn, rest) := readNum cs 0 0
  match rest with
  | '.' :: rest2 =>
    let (fp, fpn, rest3) := readNum rest2 0 0
    if ipn + fpn == 0 then none
    else readExp ((ip : ℤ) * (10 : ℤ) ^ fpn + (fp : ℤ)) fpn rest3
  | _ => if ipn == 0 then none else readExp (ip : ℤ) 0 rest

/-- Model of Python `float(s)` on strings: strips surrounding whitespace,
optional sign, digits with optional fraction and exponent, case-insensitive,
underscore separators allowed between digits.  The result is the exact
decimal `num / 10 ^ exp10`, normalised.  Non-finite forms (`inf`, `nan`) are
modelled as parse failures; either way they fail the validator's
`0.0 <= f <= 10.0` range test, so no observable behaviour differs. -/
def pyFloat (s : String) : Option (ℤ × ℕ) :=
  let cs := stripUnders ((trimChars s.toList).map Char.toLower)
  match cs with
  | [] => none
  | _ =>
    let (neg, cs') := match cs with
      | '+' :: r => (false, r)
      | '-' :: r => (true, r)
      | r => (false, r)
    match readMantissa cs' with
    | none => none
    | some (n, e) => some (normDec (if neg then -n else n) e)

/-- Model of Python `int(s)` succeeding on strings: strips whitespace,
optional sign, then digits only. -/
def pyIntOk (s : String) : Bool :=
  let cs := stripUnders (trimChars s.toList)
  let (_, cs') := match cs with
    | '+' :: r => ((), r)
    | '-' :: r => ((), r)
    | r => ((), r)
  let (_, n, rest) := readNum cs' 0 0
  n != 0 && rest.isEmpty

/-- `str.isdigit()` (ASCII fragment): non-empty and all digits. -/
def isdigitStr (s : String) : Bool :=
  !s.isEmpty && s.toList.all Char.isDigit

/-- Value of an all-digit string (used for `int(s)` after `isdigit`). -/
def natOfDigits (s : String) : Nat :=
  s.toList.foldl (fun v c => 10 * v + digitVal c) 0

/-! ## ISO-timestamp check (`_is_iso_ts`, `strptime "%Y-%m-%d %H:%M:%S%z"`) -/

/-- Days in a month, Gregorian calendar (as `datetime` validates). -/
def daysInMonth (y m : Nat) : Nat :=
  if m == 2 then
    if y % 4 == 0 && (y % 100 != 0 || y % 400 == 0) then 29 else 28
  else if m == 4 || m == 6 || m == 9 || m == 11 then 30
  else 31

/-- The `%z` UTC-offset suffix: `±HH:MM`, `±HHMM`, or `Z`. -/
def tzOk : List Char → Bool
  | [sg, a, b, ':', c, d] =>
    (sg == '+' || sg == '-') && a.isDigit && b.isDigit && c.isDigit && d.isDigit
      && (10 * digitVal a + digitVal b) ≤ 23 && (10 * digitVal c + digitVal d) ≤ 59
  | [sg, a, b, c, d] =>
    (sg == '+' || sg == '-') && a.isDigit && b.isDigit && c.isDigit && d.isDigit
      && (10 * digitVal a + digitVal b) ≤ 23 && (10 * digitVal c + digitVal d) ≤ 59
  | ['Z'] => true
  | _ => false

/-- `datetime.strptime(s, "%Y-%m-%d %H:%M:%S%z")` succeeds, for the
zero-padded shapes the adapters emit. -/
def isoCheck (s : String) : Bool :=
  match s.toList with
  | y1 :: y2 :: y3 :: y4 :: '-' :: m1 :: m2 :: '-' :: d1 :: d2 :: ' '
      :: h1 :: h2 :: ':' :: i1 :: i2 :: ':' :: s1 :: s2 :: tz =>
    (y1.isDigit && y2.isDigit && y3.isDigit && y4.isDigit
      && m1.isDigit && m2.isDigit && d1.isDigit && d2.isDigit
      && h1.isDigit && h2.isDigit && i1.isDigit && i2.isDigit
      && s1.isDigit && s2.isDigit) &&
    (let y := 1000 * digitVal y1 + 100 * digitVal y2 + 10 * digitVal y3 + digitVal y4
     let mo := 10 * digitVal m1 + digitVal m2
     let da := 10 * digitVal d1 + digitVal d2
     let ho := 10 * digitVal h1 + digitVal h2
     let mi := 10 * digitVal i1 + digitVal i2
     let se := 10 * digitVal s1 + digitVal s2
     1 ≤ y && 1 ≤ mo && mo ≤ 12 && 1 ≤ da && da ≤ daysInMonth y mo
       && ho ≤ 23 && mi ≤ 59 && se ≤ 59 && tzOk tz)
  | _ => false

/-! ## `validate.py` helpers -/

/-- `0 <= num / 10 ^ exp10 <= 10`, stated on the exact-decimal encoding. -/
def decIn0To10 (n : ℤ) (e : ℕ) : Bool :=
  decide ((0 : ℤ) ≤ n) && decide (n ≤ (10 : ℤ) * (10 : ℤ) ^ e)

/-- `_is_decimal`: `float(value)` succeeds and the result lies in `[0, 10]`. -/
def isDecimalVal : PyVal → Bool
  | PyVal.vnone => false
  | PyVal.vstr s =>
    match pyFloat s with
    | some (n, e) => decIn0To10 n e
    | none => false
  | PyVal.vfloat n e => decIn0To10 n e
  | PyVal.vint n => decide ((0 : ℤ) ≤ n) && decide (n ≤ (10 : ℤ))

/-- `_is_int`: `int(value)` succeeds (always does on a float or int). -/
def isIntVal : PyVal → Bool
  | PyVal.vnone => false
  | PyVal.vstr s => pyIntOk s
  | PyVal.vfloat _ _ => true
  | PyVal.vint _ => true

/-- `_is_iso_ts`: `strptime` succeeds; a non-string raises `TypeError`,
which the helper catches and turns into `False`. -/
def isIsoTsVal : PyVal → Bool
  | PyVal.vstr s => isoCheck s
  | _ => false

def ALLOWED_SOURCES : List String :=
  ["tmdb", "mal", "mangaupdates", "igdb", "openlibrary", "hardcover",
   "comicvine", "manual"]

def ALLOWED_MEDIA_TYPES : List String :=
  ["tv", "season", "episode", "movie", "anime", "manga", "game", "book", "comic"]

def ALLOWED_STATUSES : List String :=
  ["Completed", "In progress", "Planning", "Paused", "Dropped"]

/-- Python `v in <set of strings>` for a dict value. -/
def inStrSet (v : PyVal) (set : List String) : Bool :=
  match v with
  | PyVal.vstr s => set.contains s
  | _ => false

/-- The result of `validate_row`: a plain boolean, or — on the date-field
failure path (`validate.py` line 140) — the tuple `(False, msg)`. -/
inductive VResult where
  | b (val : Bool) : VResult
  | tupleF (msg : String) : VResult
deriving DecidableEq, Repr

/-- Python truthiness of a `validate_row` result as the adapters use it in
`if valid:`  — a non-empty tuple is truthy. -/
def vTruthy : VResult → Bool
  | VResult.b v => v
  | VResult.tupleF _ => true

/-- The required-field section of `validate_row` (`validate.py` lines 50-108),
in source order: media_id present; source present and allowed; media_type
present and allowed; the season and episode conditional checks; status present
and allowed.  Every early return in this section yields plain `False`, so the
section is summarised by the conjunction of its checks. -/
def vRequired (m : Dict) : Bool :=
  present m "media_id"
    && present m "source"
    && inStrSet (dget m "source") ALLOWED_SOURCES
    && present m "media_type"
    && inStrSet (dget m "media_type") ALLOWED_MEDIA_TYPES
    && !((dget m "media_type" == PyVal.vstr "season") && !present m "season_number")
    && !((dget m "media_type" == PyVal.vstr "episode")
          && !present m "season_number" && !present m "episode_number")
    && present m "status"
    && inStrSet (dget m "status") ALLOWED_STATUSES

/-- The score check (`validate.py` lines 118-123) passes. -/
def vScoreOk (m : Dict) : Bool :=
  !(present m "score" && !(dget m "score" == PyVal.vnone)
      && !isDecimalVal (dget m "score"))

/-- The progress check (`validate.py` lines 127-131) passes. -/
def vProgressOk (m : Dict) : Bool :=
  !(present m "progress" && !(dget m "progress" == PyVal.vnone)
      && !isIntVal (dget m "progress"))

/-- A date field hits the failure path of `validate.py` lines 136-140. -/
def vDateFail (m : Dict) (field : String) : Bool :=
  present m field && !(dget m field == PyVal.vnone) && !isIsoTsVal (dget m field)

/-- `validate_row` from `validate.py`: sequential early-return checks.  All
required-field and score/progress failures return `False`; a date-field
failure returns the tuple `(False, msg)` (source line 140); success returns
`True`.  The `except` fallthrough path (returning `None`) is unreachable for
dict inputs, whose checks raise nothing. -/
def validate_row (m : Dict) : VResult :=
  if vRequired m then
    if vScoreOk m then
      if vProgressOk m then
        if vDateFail m "start_date" then
          VResult.tupleF "start_date must be an ISO-8601 timestamp with timezone"
        else if vDateFail m "end_date" then
          VResult.tupleF "end_date must be an ISO-8601 timestamp with timezone"
        else VResult.b true
      else VResult.b false
    else VResult.b false
  else VResult.b false

/-! ## Canonical rows and adapter results -/

/-- The canonical mapped row each adapter builds (the 13-key dict literal in
`hardcover.py` lines 124-138, `igdb.py` lines 109-123, `openlibrary.py`
lines 99-113).  `source`, `media_type` and `status` are always strings in
every adapter; the remaining fields carry arbitrary Python values. -/
structure CanonRow where
  source : String
  media_id : PyVal
  media_type : String
  title : PyVal
  image : PyVal
  season_number : PyVal
  episode_number : PyVal
  score : PyVal
  status : String
  notes : PyVal
  start_date : PyVal
  end_date : PyVal
  progress : PyVal
deriving DecidableEq, Repr

/-- The canonical row as the dict passed to `validate_row`. -/
def toDict (m : CanonRow) : Dict :=
  [("source", PyVal.vstr m.source),
   ("media_id", m.media_id),
   ("media_type", PyVal.vstr m.media_type),
   ("title", m.title),
   ("image", m.image),
   ("season_number", m.season_number),
   ("episode_number", m.episode_number),
   ("score", m.score),
   ("status", PyVal.vstr m.status),
   ("notes", m.notes),
   ("start_date", m.start_date),
   ("end_date", m.end_date),
   ("progress", m.progress)]

/-- What a `map_row` call can return: a mapped dict, the empty list `[]`, or
the bare string `"Unknown Souce"` that `igdb.py` line 103 and
`openlibrary.py` line 96 return for an unrecognised strategy. -/
inductive MapResult where
  | row (m : CanonRow) : MapResult
  | empty : MapResult
  | unknown : MapResult
deriving DecidableEq, Repr

/-- The one exception class reachable in the embedded code: calling `.lower()`
on the `None` that `row.get` returns for a missing column. -/
inductive PyExn where
  | attributeError : PyExn
deriving DecidableEq, Repr

/-- A `map_row` result is a mapped row (not `None`, `[]` or a sentinel). -/
def isRowRes : MapResult → Bool
  | MapResult.row _ => true
  | _ => false

/-! ## hardcover adapter (`hardcover.py`)

`map_row` (lines 29-151): the whole strategy dispatch sits in a
`try/except` whose handler logs at error level and falls through to the
build, so a raised `AttributeError` resumes with whatever locals were
already assigned.  The only statement that can raise is line 59,
`row.get("Status").lower()`, hence the explicit case split on the
`Status` column below.  The module-level `skip_invalid_row` flag
(`validate.py` line 19, read from the environment) is passed as the
`skip` parameter. -/

/-- Status vocabulary translation, `hardcover.py` lines 62-75 (input already
lowercased). -/
def hcStatus (st : String) : String :=
  if st = "read" then "Completed"
  else if st = "want to read" then "Planning"
  else if st = "currently reading" then "In progress"
  else "In progress"

/-- The mapped row `map_row` builds for the `"default"` strategy
(`hardcover.py` lines 56-138).  When the `Status` column is absent,
line 59 raises; the handler at line 119 catches it and the build at
lines 124-138 runs with only `media_id` (line 56) resolved past the
initial defaults of lines 39-51. -/
def hcBuild (row : RawRow) : CanonRow :=
  match rawGet row "Status" with
  | none =>
    { source := "hardcover"
      media_id := optStr (rawGet row "Hardcover Book ID")
      media_type := "book"
      title := PyVal.vnone, image := PyVal.vnone
      season_number := PyVal.vnone, episode_number := PyVal.vnone
      score := PyVal.vnone, status := "Planning", notes := PyVal.vnone
      start_date := PyVal.vnone, end_date := PyVal.vnone
      progress := PyVal.vnone }
  | some stRaw =>
    let status := hcStatus (lowerStr stRaw)
    -- lines 77-87: media_type from `Media` (default "" when absent); the
    -- fallback branch only warns and keeps the lowercased raw value
    let mt := lowerStr ((rawGet row "Media").getD "")
    let mediaType :=
      if mt = "book" ∨ mt = "audio" ∨ mt = "ebook" then "book"
      else if mt = "comic" then "comic"
      else mt
    -- `Pages` is read only inside the book branch (line 81)
    let progress :=
      if mt = "book" ∨ mt = "audio" ∨ mt = "ebook" then optStr (rawGet row "Pages")
      else PyVal.vnone
    -- lines 91-99: score = float(Rating) * 2, any failure -> None; a missing
    -- or empty Rating is falsy and also yields None
    let score :=
      match rawGet row "Rating" with
      | some r =>
        if r ≠ "" then
          match pyFloat r with
          | some (n, e) => mkFloat (2 * n) e
          | none => PyVal.vnone
        else PyVal.vnone
      | none => PyVal.vnone
    -- lines 102-110: date-only strings are extended with " 00:00:00+00:00";
    -- a missing or empty source date is falsy and maps to None
    let startDate :=
      match rawGet row "Date Started" with
      | some d => if d ≠ "" then PyVal.vstr (d ++ " 00:00:00+00:00") else PyVal.vnone
      | none => PyVal.vnone
    let endDate :=
      match rawGet row "Date Finished" with
      | some d => if d ≠ "" then PyVal.vstr (d ++ " 00:00:00+00:00") else PyVal.vnone
      | none => PyVal.vnone
    { source := "hardcover"
      media_id := optStr (rawGet row "Hardcover Book ID")
      media_type := mediaType
      title := PyVal.vnone, image := PyVal.vnone
      season_number := PyVal.vnone, episode_number := PyVal.vnone
      score := score, status := status
      notes := optStr (rawGet row "Private Notes")
      start_date := startDate, end_date := endDate
      progress := progress }

/-- `hardcover.map_row` (lines 29-151): unknown strategy returns `[]`
(line 117); otherwise the built row is validated and, when the result is
falsy and `skip_invalid_row` is set, `[]` is returned (lines 140-148);
in every other case the mapped row itself is returned. -/
def hcMapRow (skip : Bool) (strategy : String) (row : RawRow) : MapResult :=
  if strategy = "default" then
    let mapped := hcBuild row
    if vTruthy (validate_row (toDict mapped)) then MapResult.row mapped
    else if skip then MapResult.empty
    else MapResult.row mapped
  else MapResult.empty

/-- `hardcover.process_rows` (lines 153-176): maps each row in order and
skips results that are `None` or `[]` (lines 167-169).  `map_row` is total
(both its bodies are wrapped in local handlers), so the surrounding
`try/except` of lines 158-176 can never fire and the result is always a
plain list. -/
def hcProcessRows (skip : Bool) (strategy : String) (rows : List RawRow) : List CanonRow :=
  rows.filterMap (fun r =>
    match hcMapRow skip strategy r with
    | MapResult.row m => some m
    | _ => none)

/-! ## igdb adapter (`igdb.py`)

No statement in `map_row` can raise (`row.get` never throws and no string
method is applied to its result), so `map_row` is total; the validation
result is computed (line 125) but the mapped row is returned regardless of
it (line 128), and `process_rows` (lines 134-151) is a plain list
comprehension with no filtering. -/

/-- A mapped igdb row: only `media_id`, `title` and `status` vary by
strategy (`igdb.py` lines 65-100, 109-123). -/
def igdbBuild (mediaId : Option String) (title : PyVal) (status : String) : CanonRow :=
  { source := "igdb"
    media_id := optStr mediaId
    media_type := "game"
    title := title, image := PyVal.vnone
    season_number := PyVal.vnone, episode_number := PyVal.vnone
    score := PyVal.vnone, status := status, notes := PyVal.vnone
    start_date := PyVal.vnone, end_date := PyVal.vnone
    progress := PyVal.vnone }

/-- `igdb.map_row` (lines 56-131): strategy dispatch per lines 80-103; the
unknown-strategy branch logs at error level and returns the string
`"Unknown Souce"`. -/
def igdbMapRow (strategy : Option String) (row : RawRow) : MapResult :=
  if strategy = some "steam_api" then
    MapResult.row (igdbBuild (rawGet row "igdb_id") (optStr (rawGet row "name")) "Planning")
  else if strategy = some "list-played" then
    MapResult.row (igdbBuild (rawGet row "id") PyVal.vnone "Completed")
  else if strategy = some "list-playing" then
    MapResult.row (igdbBuild (rawGet row "id") PyVal.vnone "In progress")
  else if strategy = some "list-want" then
    MapResult.row (igdbBuild (rawGet row "id") PyVal.vnone "Planning")
  else if strategy = some "igdb" then
    MapResult.row (igdbBuild (rawGet row "id") (optStr (rawGet row "game")) "Planning")
  else MapResult.unknown

/-- `igdb.process_rows` (lines 134-151): a list comprehension over
`map_row`; nothing is filtered out, so unknown-strategy sentinels are
included in the output. -/
def igdbProcessRows (strategy : Option String) (rows : List RawRow) : List MapResult :=
  rows.map (igdbMapRow strategy)

/-! ## openlibrary adapter (`openlibrary.py`)

`map_row` (lines 34-118) has **no** `try/except`: line 63,
`row.get("Bookshelf").lower()`, raises `AttributeError` when the
`Bookshelf` column is absent and the exception escapes `map_row`;
`process_rows` (lines 121-135) has no handler either, so the exception
propagates to the caller. -/

/-- Bookshelf status translation, `openlibrary.py` lines 66-86 (input
already lowercased; the `"did Not Finish"` comparison is embedded verbatim
even though a lowercased value can never equal it). -/
def olStatus (bs : String) : String :=
  if bs = "already read" then "Completed"
  else if bs = "currently reading" then "In progress"
  else if bs = "want to read" then "Planning"
  else if bs = "dropped" ∨ bs = "did Not Finish" ∨ bs = "abandoned" then "Dropped"
  else if bs = "paused" ∨ bs = "on hold" then "Paused"
  else "In progress"

/-- The mapped row for the reading-log strategy, given the raw `Bookshelf`
value (`openlibrary.py` lines 60-113). -/
def olBuild (row : RawRow) (bookshelf : String) : CanonRow :=
  -- lines 88-93: score = int("My Ratings") * 2 when present and all digits
  let score :=
    match rawGet row "My Ratings" with
    | some r => if isdigitStr r then PyVal.vint ((natOfDigits r : ℤ) * 2) else PyVal.vnone
    | none => PyVal.vnone
  { source := "openlibrary"
    media_id := optStr (rawGet row "Edition ID")
    media_type := "book"
    title := PyVal.vnone, image := PyVal.vnone
    season_number := PyVal.vnone, episode_number := PyVal.vnone
    score := score
    status := olStatus (lowerStr bookshelf)
    notes := PyVal.vnone
    start_date := PyVal.vnone, end_date := PyVal.vnone
    progress := PyVal.vnone }

/-- `openlibrary.map_row` (lines 34-118): the reading-log strategy raises
`AttributeError` on a row without a `Bookshelf` column (line 63, uncaught);
an unknown strategy returns the string `"Unknown Souce"` (line 96);
otherwise the mapped row is returned regardless of validation (line 118). -/
def olMapRow (strategy : Option String) (row : RawRow) : Except PyExn MapResult :=
  if strategy = some "openlibrary-reading-log" then
    match rawGet row "Bookshelf" with
    | none => Except.error PyExn.attributeError
    | some bs => Except.ok (MapResult.row (olBuild row bs))
  else Except.ok MapResult.unknown

/-- `openlibrary.process_rows` (lines 121-135): a list comprehension with no
exception handler, so the first raising row aborts the whole call with the
exception. -/
def olProcessRows (strategy : Option String) (rows : List RawRow) :
    Except PyExn (List MapResult) :=
  rows.mapM (olMapRow strategy)

/-! ## Shared helper lemmas -/

/-- With `skip_invalid_row` disabled, the `"default"` strategy always returns
the built row: an invalid row is only warned about and written through. -/
theorem hcMapRow_noskip (row : RawRow) :
    hcMapRow false "default" row = MapResult.row (hcBuild row) := by
  simp [hcMapRow]

/-- When every row of a batch maps to an actual row, `hcProcessRows` keeps
them all. -/
theorem hcProcessRows_length_of_all (skip : Bool) (strategy : String) :
    ∀ l : List RawRow,
      (l.all fun r => isRowRes (hcMapRow skip strategy r)) = true →
      (hcProcessRows skip strategy l).length = l.length := by
  intro l
  induction l with
  | nil => intro _; rfl
  | cons a t ih =>
    intro h
    rw [List.all_cons, Bool.and_eq_true] at h
    obtain ⟨ha, ht⟩ := h
    cases hm : hcMapRow skip strategy a with
    | row m =>
      simp only [hcProcessRows, List.filterMap_cons, hm, List.length_cons]
      exact congrArg Nat.succ (ih ht)
    | empty => rw [hm] at ha; simp [isRowRes] at ha
    | unknown => rw [hm] at ha; simp [isRowRes] at ha

/-! ## Claim theorems -/

/-- C1 (counterexample): the claim says every adapter's `process_rows`
catches a batch-level mapping failure and returns an empty sequence.  For the
openlibrary adapter this is false: a reading-log batch whose row has no
`Bookshelf` column makes `map_row` raise `AttributeError` (line 63) and
`process_rows` (lines 121-135), having no handler, propagates the exception
to the caller instead of returning `[]`. -/
theorem C1_cex :
    olProcessRows (some "openlibrary-reading-log") [[("Edition ID", "OL1M")]] =
      Except.error PyExn.attributeError := rfl

/-- C1 (amended): for the hardcover and igdb adapters the claimed batch-level
fail-safe holds vacuously (their `map_row` bodies catch every exception, so
`process_rows` always returns a plain list by construction); for the
openlibrary adapter an uncaught per-row mapping exception — any batch whose
first row lacks the `Bookshelf` column under the reading-log strategy —
propagates out of `process_rows` to the caller rather than resolving to an
empty sequence. -/
theorem C1_openlibrary_batch_exception_propagates
    (row : RawRow) (rest : List RawRow) (h : rawGet row "Bookshelf" = none) :
    olProcessRows (some "openlibrary-reading-log") (row :: rest) =
      Except.error PyExn.attributeError := by
  simp [olProcessRows, List.mapM, List.mapM.loop, olMapRow, h, Except.bind]
  rfl

/-- C1 witness: the amended theorem applied at a concrete batch whose first
row has no `Bookshelf` column. -/
theorem C1_witness :
    olProcessRows (some "openlibrary-reading-log")
      [[("Edition ID", "OL2M")], [("Edition ID", "OL3M"), ("Bookshelf", "Already Read")]] =
      Except.error PyExn.attributeError :=
  C1_openlibrary_batch_exception_propagates
    [("Edition ID", "OL2M")] [[("Edition ID", "OL3M"), ("Bookshelf", "Already Read")]] rfl

/-- C2 (counterexample): the claim says every adapter's `map_row` catches a
per-row mapping failure and still returns a row.  For the openlibrary
adapter this is false: with the reading-log strategy and no `Bookshelf`
column, `row.get("Bookshelf").lower()` raises and `map_row`, having no
handler, propagates the exception. -/
theorem C2_cex :
    olMapRow (some "openlibrary-reading-log") [("Edition ID", "OL1M")] =
      Except.error PyExn.attributeError := rfl

/-- C2 (amended): the hardcover adapter (and likewise igdb, which has no
raising statement at all) catches per-row mapping failures and writes the
row through with the fields already resolved: with the `Status` column
absent, line 59 raises, the handler at line 119 catches and logs at error
level, and the returned row keeps the resolved `media_id` plus the initial
defaults.  The openlibrary adapter has no such handler and the exception
escapes `map_row`. -/
theorem C2_rowlevel_failure_handling (row : RawRow) (hst : rawGet row "Status" = none) :
    hcMapRow false "default" row = MapResult.row
      { source := "hardcover"
        media_id := optStr (rawGet row "Hardcover Book ID")
        media_type := "book"
        title := PyVal.vnone, image := PyVal.vnone
        season_number := PyVal.vnone, episode_number := PyVal.vnone
        score := PyVal.vnone, status := "Planning", notes := PyVal.vnone
        start_date := PyVal.vnone, end_date := PyVal.vnone
        progress := PyVal.vnone } ∧
    (rawGet row "Bookshelf" = none →
      olMapRow (some "openlibrary-reading-log") row = Except.error PyExn.attributeError) := by
  constructor
  · rw [hcMapRow_noskip]
    unfold hcBuild
    rw [hst]
  · intro hbs
    simp [olMapRow, hbs]

/-- C2 witness: the amended theorem applied at a concrete row that has a
`Hardcover Book ID` but no `Status` and no `Bookshelf` column. -/
theorem C2_witness :
    hcMapRow false "default" [("Hardcover Book ID", "42")] = MapResult.row
      { source := "hardcover"
        media_id := optStr (rawGet [("Hardcover Book ID", "42")] "Hardcover Book ID")
        media_type := "book"
        title := PyVal.vnone, image := PyVal.vnone
        season_number := PyVal.vnone, episode_number := PyVal.vnone
        score := PyVal.vnone, status := "Planning", notes := PyVal.vnone
        start_date := PyVal.vnone, end_date := PyVal.vnone
        progress := PyVal.vnone } ∧
    (rawGet [("Hardcover Book ID", "42")] "Bookshelf" = none →
      olMapRow (some "openlibrary-reading-log") [("Hardcover Book ID", "42")] =
        Except.error PyExn.attributeError) :=
  C2_rowlevel_failure_handling [("Hardcover Book ID", "42")] rfl

/-- C3: the claim (and the function's own docstring) says `validate_row`
always returns a plain boolean.  The code disagrees on the date-field
failure path: at a row whose always-required fields are valid but whose
`start_date` is not an ISO timestamp, `validate_row` returns the 2-tuple
`(False, "start_date must be an ISO-8601 timestamp with timezone")`
(`validate.py` line 140) — a truthy value, not a boolean. -/
theorem C3_date_failure_returns_tuple :
    validate_row
      [("media_id", PyVal.vstr "12345"), ("source", PyVal.vstr "tmdb"),
       ("media_type", PyVal.vstr "movie"), ("status", PyVal.vstr "Completed"),
       ("start_date", PyVal.vstr "not-a-date")] =
      VResult.tupleF "start_date must be an ISO-8601 timestamp with timezone" ∧
    vTruthy (VResult.tupleF "start_date must be an ISO-8601 timestamp with timezone") = true := by
  decide

/-- C4: the claim (and the code's own failure message at `validate.py`
line 96) says an episode row is rejected whenever either `season_number` or
`episode_number` is missing/blank.  The code joins the two absence tests
with `and` (line 95), so a row with a season number but a blank episode
number passes validation. -/
theorem C4_episode_check_uses_and :
    validate_row
      [("media_id", PyVal.vstr "101"), ("source", PyVal.vstr "tmdb"),
       ("media_type", PyVal.vstr "episode"), ("season_number", PyVal.vstr "1"),
       ("episode_number", PyVal.vstr ""), ("status", PyVal.vstr "Completed")] =
      VResult.b true := by
  decide

/-- C5 (counterexample): the claim says an unknown strategy makes every
adapter's `map_row` return an empty result contributing nothing to the batch.
The igdb adapter instead returns the bare string `"Unknown Souce"`
(`igdb.py` line 103), and its `process_rows` list comprehension includes
that sentinel in the batch output. -/
theorem C5_cex :
    igdbMapRow (some "bogus") [] = MapResult.unknown ∧
    igdbProcessRows (some "bogus") [[]] = [MapResult.unknown] := by
  decide

/-- C5 (amended): on an unrecognised strategy no adapter raises and all log
an error-level diagnostic, but only hardcover returns the empty list `[]`
(line 117); igdb and openlibrary return the sentinel string
`"Unknown Souce"` (igdb line 103, openlibrary line 96), which their
unfiltering `process_rows` include in the batch output. -/
theorem C5_unknown_strategy (skip : Bool) (strategy : String)
    (strategyO : Option String) (row row' : RawRow)
    (hhc : strategy ≠ "default")
    (higdb : strategyO ∉ ([some "steam_api", some "list-played", some "list-playing",
                           some "list-want", some "igdb"] : List (Option String)))
    (hol : strategyO ≠ some "openlibrary-reading-log") :
    hcMapRow skip strategy row = MapResult.empty ∧
    igdbMapRow strategyO row = MapResult.unknown ∧
    olMapRow strategyO row' = Except.ok MapResult.unknown := by
  simp only [List.mem_cons, List.not_mem_nil, or_false, not_or] at higdb
  obtain ⟨h1, h2, h3, h4, h5⟩ := higdb
  refine ⟨?_, ?_, ?_⟩
  · simp [hcMapRow, hhc]
  · simp [igdbMapRow, h1, h2, h3, h4, h5]
  · simp [olMapRow, hol]

/-- C5 witness: the amended theorem applied at the unknown strategy
`"bogus2"` for all three adapters. -/
theorem C5_witness :
    hcMapRow true "bogus2" [] = MapResult.empty ∧
    igdbMapRow (some "bogus2") [] = MapResult.unknown ∧
    olMapRow (some "bogus2") [] = Except.ok MapResult.unknown :=
  C5_unknown_strategy true "bogus2" (some "bogus2") [] []
    (by decide) (by decide) (by decide)

/-- C7: the end-to-end hardcover scenario.  With the default strategy the
given raw row maps exactly to the canonical row of the claim: source
hardcover, media_id "42", media_type book, status Completed, score 8.0,
both dates extended to ISO timestamps, progress "300", all other fields
None. -/
theorem C7_hardcover_end_to_end :
    hcMapRow false "default"
      [("Hardcover Book ID", "42"), ("Status", "Read"), ("Rating", "4"),
       ("Date Started", "2023-01-01"), ("Date Finished", "2023-02-01"),
       ("Pages", "300"), ("Media", "Book")] =
      MapResult.row
        { source := "hardcover", media_id := PyVal.vstr "42",
          media_type := "book", title := PyVal.vnone, image := PyVal.vnone,
          season_number := PyVal.vnone, episode_number := PyVal.vnone,
          score := PyVal.vfloat 8 0, status := "Completed",
          notes := PyVal.vnone,
          start_date := PyVal.vstr "2023-01-01 00:00:00+00:00",
          end_date := PyVal.vstr "2023-02-01 00:00:00+00:00",
          progress := PyVal.vstr "300" } := by
  decide

/-- C6 (counterexample): the claim says that for every adapter, with
skip-invalid enabled, a batch with one validation-failing row produces N−1
output rows.  The igdb adapter never consults the flag: its `map_row`
returns the mapped row whether or not validation succeeded (`igdb.py`
line 128) and its `process_rows` filters nothing, so a 2-row batch whose
second row has a blank `id` (which fails validation) still yields 2 rows. -/
theorem C6_cex :
    vTruthy (validate_row (toDict (igdbBuild (some "") PyVal.vnone "Planning"))) = false ∧
    igdbProcessRows (some "list-want") [[("id", "1")], [("id", "")]] =
      [MapResult.row (igdbBuild (some "1") PyVal.vnone "Planning"),
       MapResult.row (igdbBuild (some "") PyVal.vnone "Planning")] := by
  decide

/-- C6 (amended): only the hardcover adapter implements the skip-invalid
policy.  For hardcover with the flag set, a batch whose one bad row maps to
the empty result (as a row rejected with a plain `False` does) yields
exactly the other rows' mapped output, in order — length N−1; igdb and
openlibrary return invalid rows regardless of the flag. -/
theorem C6_hardcover_skip_invalid (l1 l2 : List RawRow) (bad : RawRow)
    (hbad : hcMapRow true "default" bad = MapResult.empty)
    (hgood : ((l1 ++ l2).all fun r => isRowRes (hcMapRow true "default" r)) = true) :
    hcProcessRows true "default" (l1 ++ bad :: l2) =
      hcProcessRows true "default" l1 ++ hcProcessRows true "default" l2 ∧
    (hcProcessRows true "default" (l1 ++ bad :: l2)).length = l1.length + l2.length := by
  have hsplit : hcProcessRows true "default" (l1 ++ bad :: l2) =
      hcProcessRows true "default" l1 ++ hcProcessRows true "default" l2 := by
    unfold hcProcessRows
    simp only [List.filterMap_append, List.filterMap_cons, hbad]
  refine ⟨hsplit, ?_⟩
  rw [hsplit, List.length_append]
  rw [List.all_append, Bool.and_eq_true] at hgood
  obtain ⟨h1, h2⟩ := hgood
  rw [hcProcessRows_length_of_all _ _ l1 h1, hcProcessRows_length_of_all _ _ l2 h2]

/-- C6 witness: the amended theorem at a concrete 3-row batch whose middle
row has a blank `Hardcover Book ID` and is dropped under skip-invalid. -/
theorem C6_witness :
    hcMapRow true "default"
      [("Hardcover Book ID", ""), ("Status", "Read"), ("Media", "Book")] =
      MapResult.empty ∧
    (hcProcessRows true "default"
      ([[("Hardcover Book ID", "7"), ("Status", "Read"), ("Media", "Book")]] ++
        [("Hardcover Book ID", ""), ("Status", "Read"), ("Media", "Book")] ::
        [[("Hardcover Book ID", "9"), ("Status", "Read"), ("Media", "Book")]])).length = 2 :=
  ⟨by decide,
   (C6_hardcover_skip_invalid
      [[("Hardcover Book ID", "7"), ("Status", "Read"), ("Media", "Book")]]
      [[("Hardcover Book ID", "9"), ("Status", "Read"), ("Media", "Book")]]
      [("Hardcover Book ID", ""), ("Status", "Read"), ("Media", "Book")]
      (by decide) (by decide)).2⟩

/-- C8: for every row whose required-field checks all pass and whose
progress and date fields raise no objection, a score of "11", "-1" or any
non-blank string `float` cannot parse makes `validate_row` return `False`,
while "0", "10" and "5.5" let it return `True`: a present, non-null score
must parse as a decimal in [0.0, 10.0]. -/
theorem C8_score_range (m : Dict)
    (hreq : vRequired m = true)
    (hprog : vProgressOk m = true)
    (hsd : vDateFail m "start_date" = false)
    (hed : vDateFail m "end_date" = false) :
    (dlookup m "score" = some (PyVal.vstr "11") → validate_row m = VResult.b false) ∧
    (dlookup m "score" = some (PyVal.vstr "-1") → validate_row m = VResult.b false) ∧
    (∀ s : String, (trimChars s.toList).isEmpty = false → pyFloat s = none →
      dlookup m "score" = some (PyVal.vstr s) → validate_row m = VResult.b false) ∧
    (dlookup m "score" = some (PyVal.vstr "0") → validate_row m = VResult.b true) ∧
    (dlookup m "score" = some (PyVal.vstr "10") → validate_row m = VResult.b true) ∧
    (dlookup m "score" = some (PyVal.vstr "5.5") → validate_row m = VResult.b true) := by
  have hfalse : ∀ v : PyVal, dlookup m "score" = some v → presentVal v = true →
      v ≠ PyVal.vnone → isDecimalVal v = false → validate_row m = VResult.b false := by
    intro v hv hp hn hd
    have hsc : vScoreOk m = false := by
      simp [vScoreOk, present, dget, hv, hp, hd, beq_iff_eq, hn]
    simp [validate_row, hreq, hsc]
  have htrue : ∀ v : PyVal, dlookup m "score" = some v → isDecimalVal v = true →
      validate_row m = VResult.b true := by
    intro v hv hd
    have hsc : vScoreOk m = true := by
      simp [vScoreOk, dget, hv, hd]
    simp [validate_row, hreq, hsc, hprog, hsd, hed]
  refine ⟨?_, ?_, ?_, ?_, ?_, ?_⟩
  · intro h; exact hfalse _ h (by decide) (by decide) (by decide)
  · intro h; exact hfalse _ h (by decide) (by decide) (by decide)
  · intro s hblank hparse h
    refine hfalse _ h ?_ (by simp) ?_
    · have hne : trimChars s.data ≠ [] := fun hnil => by
        simp [String.toList, hnil] at hblank
      simp [presentVal, String.toList, hne]
    · simp [isDecimalVal, hparse]
  · intro h; exact htrue _ h (by decide)
  · intro h; exact htrue _ h (by decide)
  · intro h; exact htrue _ h (by decide)

/-- C8 witness: the theorem at a concrete valid movie row carrying score
"5.5", which validates to `True`. -/
theorem C8_witness :
    vRequired
      [("media_id", PyVal.vstr "12345"), ("source", PyVal.vstr "tmdb"),
       ("media_type", PyVal.vstr "movie"), ("status", PyVal.vstr "Completed"),
       ("score", PyVal.vstr "5.5")] = true ∧
    validate_row
      [("media_id", PyVal.vstr "12345"), ("source", PyVal.vstr "tmdb"),
       ("media_type", PyVal.vstr "movie"), ("status", PyVal.vstr "Completed"),
       ("score", PyVal.vstr "5.5")] = VResult.b true :=
  ⟨by decide,
   (C8_score_range _ (by decide) (by decide) (by decide) (by decide)).2.2.2.2.2 rfl⟩

/-- C9: mapping a hardcover raw row whose `Date Started` is the calendar
date "2023-01-16" (with a `Status` column so mapping completes normally)
yields a canonical row whose `start_date` is exactly
"2023-01-16 00:00:00+00:00", and that string passes the validator's
ISO-timestamp check. -/
theorem C9_date_roundtrip (row : RawRow) (st : String)
    (hst : rawGet row "Status" = some st)
    (hd : rawGet row "Date Started" = some "2023-01-16") :
    ∃ m, hcMapRow false "default" row = MapResult.row m ∧
      m.start_date = PyVal.vstr "2023-01-16 00:00:00+00:00" ∧
      isIsoTsVal (PyVal.vstr "2023-01-16 00:00:00+00:00") = true := by
  refine ⟨hcBuild row, hcMapRow_noskip row, ?_, by decide⟩
  unfold hcBuild
  rw [hst]
  simp only [hd]
  decide

/-- C9 witness: the theorem at a concrete raw row. -/
theorem C9_witness :
    ∃ m, hcMapRow false "default"
        [("Status", "Read"), ("Date Started", "2023-01-16")] = MapResult.row m ∧
      m.start_date = PyVal.vstr "2023-01-16 00:00:00+00:00" ∧
      isIsoTsVal (PyVal.vstr "2023-01-16 00:00:00+00:00") = true :=
  C9_date_roundtrip _ "Read" rfl rfl

/-- C10: for the hardcover default strategy, when the lowercased `Media`
value (empty when the column is absent) is none of book/audio/ebook/comic,
the mapped row's `media_type` is that lowercased raw value itself — the
warning at line 86 announces a fallback to "book" that the code never
performs — and `progress` stays `None`, since `Pages` is read only in the
book branch. -/
theorem C10_media_type_fallthrough (row : RawRow) (st : String)
    (hst : rawGet row "Status" = some st)
    (hmt : lowerStr ((rawGet row "Media").getD "") ∉
      (["book", "audio", "ebook", "comic"] : List String)) :
    ∃ m, hcMapRow false "default" row = MapResult.row m ∧
      m.media_type = lowerStr ((rawGet row "Media").getD "") ∧
      m.progress = PyVal.vnone := by
  simp only [List.mem_cons, List.not_mem_nil, or_false, not_or] at hmt
  obtain ⟨h1, h2, h3, h4⟩ := hmt
  refine ⟨hcBuild row, hcMapRow_noskip row, ?_, ?_⟩ <;>
  · unfold hcBuild
    rw [hst]
    simp [h1, h2, h3, h4]

/-- C10 witness: the theorem at a concrete row with `Media` = "Vinyl",
whose mapped `media_type` is "vinyl" and whose `progress` is `None`. -/
theorem C10_witness :
    ∃ m, hcMapRow false "default" [("Status", "Read"), ("Media", "Vinyl")] =
        MapResult.row m ∧
      m.media_type = lowerStr ((rawGet [("Status", "Read"), ("Media", "Vinyl")] "Media").getD "") ∧
      m.progress = PyVal.vnone :=
  C10_media_type_fallthrough _ "Read" rfl (by decide)

end YamTrack
